import Mathlib

/-!
Verification development for the RD (CarePlus / RenalDose) renal-function
audit front-end.

The numeric TypeScript code is shallowly embedded over `ℝ`: JavaScript
`Math.pow` is modelled by `Real.rpow`, JavaScript `parseFloat` results by
`Option ℝ` (`none` standing for `NaN` on an unparseable field), blank form
fields by `none`, and the ambient clock (`new Date()`) by an explicit
`today : Date` parameter.  String formatting (`toFixed`) is presentation
only and is not modelled: every equation below is about the numeric value
the code computes right before formatting.
-/

namespace RD

/-- Calendar date as seen through the JavaScript `Date` accessors used by the
code: `year` is `getFullYear()`, `month` is `getMonth()` (0-based) and `day`
is `getDate()`.  All three are JS numbers, embedded as integers. -/
structure Date where
  year : Int
  month : Int
  day : Int
deriving DecidableEq, Repr

/-- Result record of `NewAudit.tsx`'s `calculateKidneyFunction`
(`{ egfr, crcl, crclNormalized }`, lines 435-439). -/
structure KidneyFunction where
  egfr : ℝ
  crcl : ℝ
  crclNormalized : ℝ

/-- Result record of `PatientManagement.tsx`'s `calculateKidneyFunction`
(`{ crcl, crclNormalized, egfr, bsa }`, lines 387-392; the code formats each
with `toFixed`, which we drop). -/
structure KidneyFunctionPM where
  crcl : ℝ
  crclNormalized : ℝ
  egfr : ℝ
  bsa : ℝ

/-- The DuBois and DuBois body-surface-area formula
`0.007184 * height^0.725 * weight^0.425`, exactly as it appears (inlined) in
`NewAudit.tsx` line 372, `NewAudit.tsx` line 421 and
`PatientManagement.tsx` lines 378 and 427. -/
noncomputable def duBoisBSA (weight height : ℝ) : ℝ :=
  0.007184 * height ^ (0.725 : ℝ) * weight ^ (0.425 : ℝ)

namespace NewAudit

/-- The age used inside `NewAudit.tsx`'s `calculateKidneyFunction` (line 410):
`new Date().getFullYear() - new Date(birthDate).getFullYear()`, a plain
year difference with no month/day correction.  `today` models the ambient
`new Date()`. -/
def auditAge (today birthDate : Date) : Int :=
  today.year - birthDate.year

/-- `NewAudit.tsx` `calculateKidneyFunction` (lines 409-440): Cockcroft-Gault
CrCl (female variant inlines the 0.85 factor into the numerator), DuBois BSA,
normalization by `1.73/bsa`, MDRD eGFR, and a final `Math.max(_, 0)` clamp on
all three returned values. -/
noncomputable def calculateKidneyFunction (today : Date) (scr weight height : ℝ)
    (gender : String) (birthDate : Date) : KidneyFunction :=
  let age : ℝ := ((auditAge today birthDate : Int) : ℝ)
  let crcl : ℝ :=
    if gender = "male" then ((140 - age) * weight) / (72 * scr)
    else ((140 - age) * weight * 0.85) / (72 * scr)
  let bsa : ℝ := 0.007184 * height ^ (0.725 : ℝ) * weight ^ (0.425 : ℝ)
  let crclNormalized : ℝ := (crcl * 1.73) / bsa
  let egfr : ℝ :=
    if gender = "male" then 175 * scr ^ (-1.154 : ℝ) * age ^ (-0.203 : ℝ)
    else 175 * scr ^ (-1.154 : ℝ) * age ^ (-0.203 : ℝ) * 0.742
  { egfr := max egfr 0, crcl := max crcl 0, crclNormalized := max crclNormalized 0 }

/-- Parsed view of the `NewAudit.tsx` patient form state.  String fields that
the code feeds through `parseFloat` are `Option ℝ` (`none` = `NaN`), the
birth-date string is `Option Date` (`none` = empty string, which is falsy),
and the computed output fields `egfr`, `crcl`, `crclNormalized`, `bsa` are
`Option ℝ` (`none` = the blank string `''`). -/
structure PatientInfo where
  name : String
  gender : String
  birthDate : Option Date
  weight : Option ℝ
  height : Option ℝ
  scr : Option ℝ
  egfr : Option ℝ
  crcl : Option ℝ
  crclNormalized : Option ℝ
  bsa : Option ℝ
  isOnDialysis : Bool

/-- The state-update function of `NewAudit.tsx` `handlePatientInfoChange`
(lines 360-406), applied to the already-updated form state: BSA is computed
whenever weight and height parse (independent of dialysis); the kidney
metrics are computed only when scr, weight, height, gender, birthDate are all
present and the patient is not on dialysis; when the patient is on dialysis
the three metric fields are reset to blank. -/
noncomputable def handlePatientInfoChange (today : Date) (info : PatientInfo) :
    PatientInfo :=
  let bsa : Option ℝ :=
    match info.weight, info.height with
    | some w, some h => some (0.007184 * h ^ (0.725 : ℝ) * w ^ (0.425 : ℝ))
    | _, _ => none
  match info.scr, info.weight, info.height, info.birthDate with
  | some scr, some w, some h, some bd =>
    if info.gender ≠ "" ∧ info.isOnDialysis = false then
      let r := calculateKidneyFunction today scr w h info.gender bd
      { info with bsa := bsa, egfr := some r.egfr, crcl := some r.crcl,
                  crclNormalized := some r.crclNormalized }
    else if info.isOnDialysis then
      { info with bsa := bsa, egfr := none, crcl := none, crclNormalized := none }
    else
      { info with bsa := bsa }
  | _, _, _, _ =>
    if info.isOnDialysis then
      { info with bsa := bsa, egfr := none, crcl := none, crclNormalized := none }
    else
      { info with bsa := bsa }

/-- The patient record posted by `NewAudit.tsx` `handleAuditExecution`
(lines 515-527). -/
structure PatientData where
  name : Option String
  sex : String
  birth_date : Option Date
  weight_kg : Option ℝ
  height_cm : Option ℝ
  scr_mg_dl : Option ℝ
  egfr : ℝ
  crcl : ℝ
  crcl_normalized : ℝ
  bsa : ℝ
  is_hd : Bool

/-- Construction of `patientData` in `NewAudit.tsx` `handleAuditExecution`
(lines 515-527): `scr_mg_dl` is the sentinel `10.0` when `isOnDialysis`,
otherwise the parsed scr field; `parseFloat(x) || 0` on the derived fields is
modelled by `Option.getD _ 0`. -/
noncomputable def buildPatientData (info : PatientInfo) : PatientData :=
  { name := if info.name = "" then none else some info.name
    sex := if info.gender = "male" then "M" else "F"
    birth_date := info.birthDate
    weight_kg := info.weight
    height_cm := info.height
    scr_mg_dl := if info.isOnDialysis then some 10.0 else info.scr
    egfr := (info.egfr).getD 0
    crcl := (info.crcl).getD 0
    crcl_normalized := (info.crclNormalized).getD 0
    bsa := (info.bsa).getD 0
    is_hd := info.isOnDialysis }

end NewAudit

namespace PatientManagement

/-- `PatientManagement.tsx` `calculateAge` (lines 396-407): year difference,
decremented when the month difference is negative, or zero with today's day
before the birth day.  `today` models the ambient `new Date()`. -/
def calculateAge (today birth : Date) : Int :=
  let age := today.year - birth.year
  let monthDiff := today.month - birth.month
  if monthDiff < 0 ∨ (monthDiff = 0 ∧ today.day < birth.day) then age - 1 else age

/-- `PatientManagement.tsx` `calculateKidneyFunction` (lines 368-393): same
formulas as the NewAudit copy but using `calculateAge`, branching on
`gender === 'female'`, normalizing via `crcl * (1.73 / bsa)`, and with NO
clamping of the results (the code formats them with `toFixed` directly). -/
noncomputable def calculateKidneyFunction (today : Date) (scr weight height : ℝ)
    (gender : String) (birthDate : Date) : KidneyFunctionPM :=
  let age : ℝ := ((calculateAge today birthDate : Int) : ℝ)
  let crcl0 : ℝ := ((140 - age) * weight) / (72 * scr)
  let crcl : ℝ := if gender = "female" then crcl0 * 0.85 else crcl0
  let bsa : ℝ := 0.007184 * height ^ (0.725 : ℝ) * weight ^ (0.425 : ℝ)
  let crclNormalized : ℝ := crcl * (1.73 / bsa)
  let egfr0 : ℝ := 175 * scr ^ (-1.154 : ℝ) * age ^ (-0.203 : ℝ)
  let egfr : ℝ := if gender = "female" then egfr0 * 0.742 else egfr0
  { crcl := crcl, crclNormalized := crclNormalized, egfr := egfr, bsa := bsa }

end PatientManagement

namespace AuditResultPopup

/-- The `calculateAge` of the audit-result popup component
(`src/unnamed/part_004`, lines 158-170): returns 0 on an empty birth-date
string, otherwise the same month/day-corrected year difference as
`PatientManagement.calculateAge`. -/
def calculateAge (today : Date) (birthDate : Option Date) : Int :=
  match birthDate with
  | none => 0
  | some birth =>
    let age := today.year - birth.year
    let monthDiff := today.month - birth.month
    if monthDiff < 0 ∨ (monthDiff = 0 ∧ today.day < birth.day) then age - 1 else age

/-- The per-line audit outcome categories of the system
(`AuditResultType` in `src/unnamed/part_004` line 40, plus the popup's
`getBaseInfo` mapping): `'금기'` = Contraindicated, `'용량조절필요'` =
DoseAdjustmentNeeded, `'투여간격조절필요'` = IntervalAdjustmentNeeded,
`'정상'` and `'-'` = Normal. -/
inductive AuditCategory where
  | Contraindicated
  | DoseAdjustmentNeeded
  | IntervalAdjustmentNeeded
  | Normal
deriving DecidableEq, Repr

/-- Category denoted by a stored `audit_result` string, following the
`getBaseInfo` switch of `src/unnamed/part_004` (lines 69-108): the five
`AuditResultType` values map to the four categories (`'정상'` and `'-'` both
to Normal); anything else is the `'알 수 없음'` default, modelled as `none`. -/
def resultCategory (r : String) : Option AuditCategory :=
  if r = "금기" then some .Contraindicated
  else if r = "용량조절필요" then some .DoseAdjustmentNeeded
  else if r = "투여간격조절필요" then some .IntervalAdjustmentNeeded
  else if r = "정상" ∨ r = "-" then some .Normal
  else none

/-- The five legal `audit_result` strings of `AuditResultType`
(`src/unnamed/part_004` line 40). -/
def validResults : List String := ["금기", "용량조절필요", "투여간격조절필요", "-", "정상"]

/-- The has-issues test shared by `getPopupTitle` and `getSectionTitle` in
`src/unnamed/part_004` (lines 141-155):
`prescriptions.some(p => p.audit_result !== '-' && p.audit_result !== '정상')`. -/
def hasIssues (results : List String) : Bool :=
  results.any fun r => r ≠ "-" && r ≠ "정상"

/-- `getPopupTitle` of `src/unnamed/part_004` (lines 141-144), as the title
string it renders. -/
def getPopupTitle (results : List String) : String :=
  if hasIssues results then "⚠️ 처방 이상 사항" else "✅ 처방 감사 결과"

end AuditResultPopup

namespace AuditHistory

/-- The label of the status badge rendered by `AuditHistory.tsx`
`getStatusBadge` (lines 131-142), as a function of the `audit_result` strings
of the order's prescriptions: a pending line (`'대기중'`) wins, then any line
that is neither `'-'` nor `'대기중'` makes the order `'이상'`, otherwise
`'정상'`. -/
def statusBadgeLabel (results : List String) : String :=
  let hasAbnormal := results.any fun r => r ≠ "-" && r ≠ "대기중"
  let hasPending := results.any fun r => r = "대기중"
  if hasPending then "대기중" else if hasAbnormal then "이상" else "정상"

end AuditHistory

namespace PrescriptionInput

/-- The latest-measurement record read by `PrescriptionInput.tsx`
`handleSubmitPrescription` when building the popup's patient info
(lines 547-559); numeric fields are optional in the API payload. -/
structure Measurement where
  weight_kg : Option ℝ
  height_cm : Option ℝ
  scr_mg_dl : Option ℝ
  crcl : Option ℝ
  crcl_normalized : Option ℝ
  egfr : Option ℝ
  bsa : Option ℝ
  is_hd : Bool

/-- A displayed field value of the popup patient info: `dialysis` is the
string `'투석 중'`, `missing` the fallback `'-'`, `val x` the number rendered
with `toString()`. -/
inductive DisplayValue where
  | dialysis
  | missing
  | val (x : ℝ)

/-- One `is_hd ? '투석 중' : (field?.toString() || '-')` expression from
`PrescriptionInput.tsx` lines 553-556. -/
def hdField (isHd : Bool) (v : Option ℝ) : DisplayValue :=
  if isHd then .dialysis else
    match v with
    | some x => .val x
    | none => .missing

/-- One `field?.toString() || '-'` expression (no dialysis guard), as used
for `bsa` on `PrescriptionInput.tsx` line 557. -/
def plainField (v : Option ℝ) : DisplayValue :=
  match v with
  | some x => .val x
  | none => .missing

/-- The displayed renal fields of the `patientInfo` object built by
`PrescriptionInput.tsx` `handleSubmitPrescription` (lines 547-559). -/
structure PopupPatientFields where
  scr : DisplayValue
  crcl : DisplayValue
  crclNormalized : DisplayValue
  egfr : DisplayValue
  bsa : DisplayValue

/-- Construction of those fields from the selected patient's latest
measurement (`PrescriptionInput.tsx` lines 553-557). -/
def popupPatientInfo (m : Measurement) : PopupPatientFields :=
  { scr := hdField m.is_hd m.scr_mg_dl
    crcl := hdField m.is_hd m.crcl
    crclNormalized := hdField m.is_hd m.crcl_normalized
    egfr := hdField m.is_hd m.egfr
    bsa := plainField m.bsa }

end PrescriptionInput

/-- Spec-side age formula, worded as the spec states it (spec section 4.1,
`computeAge`): the whole-year difference of the two dates, decremented by
exactly one when the evaluation date's month/day is earlier than the birth
date's month/day.  Kept separate from the code-translated `calculateAge`
definitions so the two can be compared. -/
def specComputeAge (asOf birth : Date) : Int :=
  (asOf.year - birth.year) -
    (if asOf.month < birth.month ∨ (asOf.month = birth.month ∧ asOf.day < birth.day)
     then 1 else 0)

/-- Spec-side Cockcroft-Gault formula (spec section 4.1,
`computeCreatinineClearance`): `((140 - age) * weightKg) / (72 * scr)`,
multiplied by 0.85 when the sex is female. -/
noncomputable def specCockcroftGault (age weight scr : ℝ) (female : Bool) : ℝ :=
  (((140 - age) * weight) / (72 * scr)) * (if female then 0.85 else 1)

/-- Spec-side CrCl normalization (spec section 4.1, `normalizeCrCl`):
`crcl * 1.73 / bsa`. -/
noncomputable def specNormalizeCrCl (crcl bsa : ℝ) : ℝ :=
  crcl * 1.73 / bsa

namespace DoseRuleEvaluator

open AuditResultPopup (AuditCategory)

/-- Severity rank of an audit category under the spec's fixed ordering
(spec section 4.2 step 3): Contraindicated > IntervalAdjustmentNeeded >
DoseAdjustmentNeeded > Normal. -/
def severity : AuditCategory → Nat
  | .Contraindicated => 3
  | .IntervalAdjustmentNeeded => 2
  | .DoseAdjustmentNeeded => 1
  | .Normal => 0

/-- Renal metric a dosing rule tests (spec section 4.2: CrCl, normalized
CrCl, or eGFR). -/
inductive MetricKind where
  | crcl
  | crclNormalized
  | egfr
deriving DecidableEq, Repr

/-- Modelled from the spec: one renal-dosing constraint of the rule-table
collaborator (spec section 6, `lookupRenalDosingRules` returns
`{metric, range, category, rationaleTemplate, isDialysisRule}`).  The actual
rule table and its evaluator live in the backend (`audit_router.py`), which
is not part of the sources; a range is an optional inclusive lower and
exclusive upper threshold, so that `CrCl < 30` is `⟨none, some 30⟩`. -/
structure DoseRule where
  metric : MetricKind
  lowerBound : Option ℚ
  upperBound : Option ℚ
  category : AuditCategory
  rationaleTemplate : String
  isDialysisRule : Bool

/-- Modelled from the spec: the patient's renal metrics as consumed by the
evaluator (spec section 3, `RenalMetrics`): each creatinine-derived metric is
optional (`none` = not applicable, e.g. on dialysis). -/
structure RenalMetricsQ where
  crcl : Option ℚ
  crclNormalized : Option ℚ
  egfr : Option ℚ
  onDialysis : Bool

/-- The metric value a rule needs, from the patient's metrics. -/
def metricValue (m : RenalMetricsQ) : MetricKind → Option ℚ
  | .crcl => m.crcl
  | .crclNormalized => m.crclNormalized
  | .egfr => m.egfr

/-- Range test for a rule's threshold pair. -/
def inRange (v : ℚ) (lo hi : Option ℚ) : Bool :=
  (match lo with | some l => decide (l ≤ v) | none => true) &&
  (match hi with | some u => decide (v < u) | none => true)

/-- Modelled from the spec: whether a (non-dialysis) rule's numeric
constraint matches the patient's metrics (spec section 4.2 step 3). -/
def ruleMatches (m : RenalMetricsQ) (r : DoseRule) : Bool :=
  !r.isDialysisRule &&
    (match metricValue m r.metric with
     | some v => inRange v r.lowerBound r.upperBound
     | none => false)

/-- The more severe of two categories (left-biased on ties). -/
def moreSevere (a b : AuditCategory) : AuditCategory :=
  if severity a < severity b then b else a

/-- The most severe category of a list, `Normal` when the list is empty. -/
def mostSevere (l : List AuditCategory) : AuditCategory :=
  l.foldl moreSevere .Normal

/-- One audit outcome per prescription line (spec section 3,
`AuditOutcome`). -/
structure AuditOutcome where
  category : AuditCategory
  rationale : String

/-- Modelled from the spec: the line evaluator of spec section 4.2 (the
backend implementation is not in the sources).  Step 1: no constraints on
record yields Normal; step 2: on dialysis a dialysis-specific rule applies
directly; step 4: on dialysis without such a rule the evaluator degrades to
Normal with a rationale; step 3: otherwise the most severe matching numeric
constraint wins under the fixed severity ordering; step 5: no matching
constraint yields the within-normal-range rationale. -/
def evaluateLine (rules : List DoseRule) (m : RenalMetricsQ) : AuditOutcome :=
  if rules.isEmpty then
    { category := .Normal, rationale := "no renal-dose constraint on record" }
  else if m.onDialysis then
    match rules.find? (fun r => r.isDialysisRule) with
    | some r => { category := r.category, rationale := r.rationaleTemplate }
    | none =>
      { category := .Normal
        rationale := "renal metric not applicable while on dialysis" }
  else
    let matched := rules.filter (ruleMatches m)
    if matched.isEmpty then
      { category := .Normal
        rationale := "within normal renal-function range for this drug" }
    else
      { category := mostSevere (matched.map (fun r => r.category))
        rationale := "most severe matching renal-dose rule applied" }

/-- The Contraindicated-below-30 CrCl rule of the spec's severity-ordering
scenario (spec section 8). -/
def contraBelow30 : DoseRule :=
  { metric := .crcl, lowerBound := none, upperBound := some 30
    category := .Contraindicated, rationaleTemplate := "CrCl below 30: contraindicated"
    isDialysisRule := false }

/-- The DoseAdjustmentNeeded-below-60 CrCl rule of the spec's
severity-ordering scenario (spec section 8). -/
def doseBelow60 : DoseRule :=
  { metric := .crcl, lowerBound := none, upperBound := some 60
    category := .DoseAdjustmentNeeded, rationaleTemplate := "CrCl below 60: adjust dose"
    isDialysisRule := false }

/-- The CrCl = 20 patient of the spec's severity-ordering scenario. -/
def patientCrCl20 : RenalMetricsQ :=
  { crcl := some 20, crclNormalized := none, egfr := none, onDialysis := false }

end DoseRuleEvaluator

/-! Theorems. -/

/-- C1: for every biometrics input with the dialysis flag set, the renal
metric computation leaves CrCl, normalized CrCl and eGFR not applicable
(blank in the NewAudit form, `'투석 중'` in the PrescriptionInput popup),
whatever creatinine value is supplied, while BSA is still computed from
weight and height alone. -/
theorem claim_C1_dialysis_suppresses_creatinine_metrics :
    (∀ (today : Date) (info : NewAudit.PatientInfo), info.isOnDialysis = true →
      (NewAudit.handlePatientInfoChange today info).egfr = none ∧
      (NewAudit.handlePatientInfoChange today info).crcl = none ∧
      (NewAudit.handlePatientInfoChange today info).crclNormalized = none ∧
      (∀ w h : ℝ, info.weight = some w → info.height = some h →
        (NewAudit.handlePatientInfoChange today info).bsa = some (duBoisBSA w h))) ∧
    (∀ m : PrescriptionInput.Measurement, m.is_hd = true →
      (PrescriptionInput.popupPatientInfo m).scr = .dialysis ∧
      (PrescriptionInput.popupPatientInfo m).crcl = .dialysis ∧
      (PrescriptionInput.popupPatientInfo m).crclNormalized = .dialysis ∧
      (PrescriptionInput.popupPatientInfo m).egfr = .dialysis) := by
  constructor
  · intro today info hd
    unfold NewAudit.handlePatientInfoChange
    rcases hscr : info.scr with _ | scr <;> rcases hw : info.weight with _ | w <;>
      rcases hh : info.height with _ | h <;> rcases hbd : info.birthDate with _ | bd <;>
      simp_all [duBoisBSA]
  · intro m hm
    simp [PrescriptionInput.popupPatientInfo, PrescriptionInput.hdField, hm]

/-- Witness for C1 at a concrete dialysis patient. -/
theorem claim_C1_witness :
    (NewAudit.handlePatientInfoChange ⟨2025, 4, 15⟩
      (⟨"", "male", some ⟨1980, 4, 15⟩, some 70, some 175, some 5, none, none, none,
        none, true⟩ : NewAudit.PatientInfo)).egfr = none ∧
    (NewAudit.handlePatientInfoChange ⟨2025, 4, 15⟩
      (⟨"", "male", some ⟨1980, 4, 15⟩, some 70, some 175, some 5, none, none, none,
        none, true⟩ : NewAudit.PatientInfo)).bsa = some (duBoisBSA 70 175) ∧
    (PrescriptionInput.popupPatientInfo
      (⟨some 70, some 175, some 5, some 40, some 38, some 35, some 2, true⟩ :
        PrescriptionInput.Measurement)).scr = .dialysis := by
  refine ⟨?_, ?_, ?_⟩
  · exact (claim_C1_dialysis_suppresses_creatinine_metrics.1 _ _ rfl).1
  · exact (claim_C1_dialysis_suppresses_creatinine_metrics.1 _ _ rfl).2.2.2 70 175 rfl rfl
  · exact (claim_C1_dialysis_suppresses_creatinine_metrics.2 _ rfl).1

/-- C2 (amended): the NewAudit copy of `calculateKidneyFunction` clamps all
three derived metrics to zero, so they are always non-negative; the
PatientManagement copy does not clamp (see the counterexample). -/
theorem claim_C2_newaudit_metrics_nonneg :
    ∀ (today : Date) (scr w h : ℝ) (g : String) (bd : Date),
      0 ≤ (NewAudit.calculateKidneyFunction today scr w h g bd).crcl ∧
      0 ≤ (NewAudit.calculateKidneyFunction today scr w h g bd).crclNormalized ∧
      0 ≤ (NewAudit.calculateKidneyFunction today scr w h g bd).egfr := by
  intro today scr w h g bd
  exact ⟨le_max_right _ 0, le_max_right _ 0, le_max_right _ 0⟩

/-- Counterexample to C2 as stated: the PatientManagement copy of
`calculateKidneyFunction` returns a negative CrCl for a (valid, non-dialysis)
input with age 150, because it never clamps. -/
theorem claim_C2_counterexample :
    (PatientManagement.calculateKidneyFunction ⟨2030, 5, 15⟩ 1 70 175 "male"
      ⟨1880, 5, 15⟩).crcl < 0 := by
  norm_num [PatientManagement.calculateKidneyFunction, PatientManagement.calculateAge]
  split <;> norm_num

/-- C3 (amended): `PatientManagement.calculateAge` and the popup's
`calculateAge` both compute the whole-year difference decremented by one
exactly when the evaluation date's month/day precedes the birth date's
month/day; the age inlined in `NewAudit.calculateKidneyFunction` is the plain
year difference without that correction (see the counterexample). -/
theorem claim_C3_age_monthday_correction :
    ∀ today birth : Date,
      PatientManagement.calculateAge today birth = specComputeAge today birth ∧
      AuditResultPopup.calculateAge today (some birth) = specComputeAge today birth := by
  intro t b
  constructor
  · simp only [PatientManagement.calculateAge, specComputeAge]
    split_ifs <;> omega
  · simp only [AuditResultPopup.calculateAge, specComputeAge]
    split_ifs <;> omega

/-- Counterexample to C3 as stated: the age computed inside
`NewAudit.calculateKidneyFunction` (plain year difference) differs from the
claimed month/day-corrected value when the evaluation month/day precedes the
birth month/day. -/
theorem claim_C3_counterexample :
    NewAudit.auditAge ⟨2025, 1, 1⟩ ⟨1980, 4, 15⟩ ≠
      specComputeAge ⟨2025, 1, 1⟩ ⟨1980, 4, 15⟩ := by
  decide

/-- C8 (amended): the renal metric computation is deterministic in its
biometrics and the ambient clock value it reads: the NewAudit calculator
depends on the clock only through the current year, so two runs with
identical biometrics and the same clock year yield identical metrics.  It is
NOT independent of the clock (see the counterexample). -/
theorem claim_C8_deterministic_given_clock_year :
    ∀ (t1 t2 : Date) (scr w h : ℝ) (g : String) (bd : Date), t1.year = t2.year →
      NewAudit.calculateKidneyFunction t1 scr w h g bd =
        NewAudit.calculateKidneyFunction t2 scr w h g bd := by
  intro t1 t2 scr w h g bd hy
  unfold NewAudit.calculateKidneyFunction NewAudit.auditAge
  rw [hy]

/-- Witness for C8 at two concrete clock dates in the same year. -/
theorem claim_C8_witness :
    NewAudit.calculateKidneyFunction ⟨2025, 0, 1⟩ 1 70 175 "male" ⟨1980, 4, 15⟩ =
      NewAudit.calculateKidneyFunction ⟨2025, 11, 31⟩ 1 70 175 "male" ⟨1980, 4, 15⟩ :=
  claim_C8_deterministic_given_clock_year ⟨2025, 0, 1⟩ ⟨2025, 11, 31⟩ 1 70 175 "male"
    ⟨1980, 4, 15⟩ rfl

/-- Counterexample to C8 as stated: identical biometrics evaluated under two
different ambient clock values yield different CrCl, because the calculator
reads the system clock for the age. -/
theorem claim_C8_counterexample :
    (NewAudit.calculateKidneyFunction ⟨2024, 0, 1⟩ 1 70 175 "male" ⟨1980, 0, 1⟩).crcl ≠
      (NewAudit.calculateKidneyFunction ⟨2025, 0, 1⟩ 1 70 175 "male" ⟨1980, 0, 1⟩).crcl := by
  norm_num [NewAudit.calculateKidneyFunction, NewAudit.auditAge]

/-- A real base raised to a real exponent `c` with `c * q = p` is bounded by
rational numbers whose `q`-th powers bound the base's `p`-th power. -/
lemma rpow_bounds_of_pow {x l u c : ℝ} {q p : ℕ} (hx : 0 < x) (hl : 0 ≤ l)
    (hu : 0 ≤ u) (hq : q ≠ 0) (hc : c * (q : ℝ) = (p : ℝ))
    (h1 : l ^ q ≤ x ^ p) (h2 : x ^ p ≤ u ^ q) : l ≤ x ^ c ∧ x ^ c ≤ u := by
  have hy : (0 : ℝ) ≤ x ^ c := Real.rpow_nonneg hx.le _
  have key : (x ^ c) ^ q = x ^ p := by
    rw [← Real.rpow_natCast (x ^ c) q, ← Real.rpow_mul hx.le, hc, Real.rpow_natCast]
  constructor
  · exact (pow_le_pow_iff_left₀ hl hy hq).mp (key ▸ h1)
  · exact (pow_le_pow_iff_left₀ hy hu hq).mp (key ▸ h2)

/-- C5 (amended): the returned creatinine clearance is the Cockcroft-Gault
value `((140 - age) * weightKg) / (72 * scr)`, times 0.85 exactly for a
female patient: exactly so in the PatientManagement copy, and in the NewAudit
copy whenever the formula value is non-negative (NewAudit clamps negatives to
zero, see the counterexample); for the male patient aged 45, weight 70, scr
1.0 the NewAudit copy returns 6650/72. -/
theorem claim_C5_cockcroft_gault :
    (∀ (today : Date) (scr w h : ℝ) (g : String) (bd : Date),
      (PatientManagement.calculateKidneyFunction today scr w h g bd).crcl =
        specCockcroftGault ((PatientManagement.calculateAge today bd : Int) : ℝ) w scr
          (g == "female")) ∧
    (∀ (today : Date) (scr w h : ℝ) (g : String) (bd : Date),
      g = "male" ∨ g = "female" →
      0 ≤ specCockcroftGault ((NewAudit.auditAge today bd : Int) : ℝ) w scr
            (g == "female") →
      (NewAudit.calculateKidneyFunction today scr w h g bd).crcl =
        specCockcroftGault ((NewAudit.auditAge today bd : Int) : ℝ) w scr
          (g == "female")) ∧
    (NewAudit.calculateKidneyFunction ⟨2025, 0, 1⟩ 1 70 175 "male" ⟨1980, 0, 1⟩).crcl =
      6650 / 72 := by
  refine ⟨?_, ?_, ?_⟩
  · intro today scr w h g bd
    by_cases hg : g = "female" <;>
      simp [PatientManagement.calculateKidneyFunction, specCockcroftGault, hg]
  · rintro today scr w h g bd (hg | hg) h0 <;> subst hg
    · norm_num [NewAudit.calculateKidneyFunction, specCockcroftGault,
        show ¬(("male" : String) = "female") from by decide] at h0 ⊢
      linarith
    · norm_num [NewAudit.calculateKidneyFunction, specCockcroftGault,
        show ¬(("female" : String) = "male") from by decide] at h0 ⊢
      have key : (140 - ((NewAudit.auditAge today bd : Int) : ℝ)) * w * (17 / 20) / (72 * scr)
          = (140 - ((NewAudit.auditAge today bd : Int) : ℝ)) * w / (72 * scr) * (17 / 20) := by
        ring
      rw [key]
      apply max_eq_left
      ring_nf
      ring_nf at h0
      linarith
  · norm_num [NewAudit.calculateKidneyFunction, NewAudit.auditAge]

/-- Witness for C5 at the spec's concrete scenario (male, age 45, weight 70,
scr 1.0). -/
theorem claim_C5_witness :
    (NewAudit.calculateKidneyFunction ⟨2025, 0, 1⟩ 1 70 175 "male" ⟨1980, 0, 1⟩).crcl =
      specCockcroftGault ((NewAudit.auditAge ⟨2025, 0, 1⟩ ⟨1980, 0, 1⟩ : Int) : ℝ) 70 1
        ("male" == "female") :=
  claim_C5_cockcroft_gault.2.1 ⟨2025, 0, 1⟩ 1 70 175 "male" ⟨1980, 0, 1⟩ (Or.inl rfl)
    (by norm_num [specCockcroftGault, NewAudit.auditAge,
      show ¬(("male" : String) = "female") from by decide])

/-- Counterexample to C5 as stated: for an age above 140 the NewAudit copy
returns the clamped value 0, not the (negative) Cockcroft-Gault formula
value. -/
theorem claim_C5_counterexample :
    (NewAudit.calculateKidneyFunction ⟨2030, 0, 1⟩ 1 70 175 "male" ⟨1880, 0, 1⟩).crcl ≠
      specCockcroftGault ((NewAudit.auditAge ⟨2030, 0, 1⟩ ⟨1880, 0, 1⟩ : Int) : ℝ) 70 1
        ("male" == "female") := by
  norm_num [NewAudit.calculateKidneyFunction, NewAudit.auditAge, specCockcroftGault,
    show ¬(("male" : String) = "female") from by decide]

/-- C6 (amended): the normalized clearance equals `crcl * 1.73 / bsa` (the
PatientManagement copy computes `crcl * (1.73 / bsa)`, the same real number);
but there is no zero-BSA guard: the division is performed unconditionally and
still populates the field (see the counterexample). -/
theorem claim_C6_normalization :
    ∀ (today : Date) (scr w h : ℝ) (g : String) (bd : Date),
      (PatientManagement.calculateKidneyFunction today scr w h g bd).crclNormalized =
        specNormalizeCrCl
          (PatientManagement.calculateKidneyFunction today scr w h g bd).crcl
          (PatientManagement.calculateKidneyFunction today scr w h g bd).bsa := by
  intro today scr w h g bd
  simp only [PatientManagement.calculateKidneyFunction, specNormalizeCrCl]
  ring

/-- Counterexample to C6 as stated: with height 0 the computed BSA is 0, yet
the form-update code still computes and stores a normalized-CrCl value (in
JavaScript the division yields Infinity); it neither fails nor marks the
field not computable. -/
theorem claim_C6_counterexample :
    ((NewAudit.handlePatientInfoChange ⟨2025, 4, 15⟩
        (⟨"", "male", some ⟨1980, 4, 15⟩, some 70, some 0, some 1, none, none, none,
          none, false⟩ : NewAudit.PatientInfo)).crclNormalized).isSome = true ∧
    (NewAudit.handlePatientInfoChange ⟨2025, 4, 15⟩
        (⟨"", "male", some ⟨1980, 4, 15⟩, some 70, some 0, some 1, none, none, none,
          none, false⟩ : NewAudit.PatientInfo)).bsa = some 0 := by
  constructor
  · simp [NewAudit.handlePatientInfoChange]
  · have hz : (0 : ℝ) ^ (0.725 : ℝ) = 0 := Real.zero_rpow (by norm_num)
    simp [NewAudit.handlePatientInfoChange, hz]

/-- C7: the body surface area is `0.007184 * heightCm^0.725 * weightKg^0.425`
(as returned by the PatientManagement calculator), and at weight 70 kg,
height 175 cm it is within 0.01 of 1.847. -/
theorem claim_C7_dubois_bsa :
    (∀ (today : Date) (scr w h : ℝ) (g : String) (bd : Date),
      (PatientManagement.calculateKidneyFunction today scr w h g bd).bsa =
        duBoisBSA w h) ∧
    |duBoisBSA 70 175 - 1.847| ≤ 0.01 := by
  constructor
  · intro today scr w h g bd
    simp [PatientManagement.calculateKidneyFunction, duBoisBSA]
  · obtain ⟨a1, a2⟩ := rpow_bounds_of_pow (x := (175 : ℝ)) (l := 42.28) (u := 42.3)
      (c := 0.725) (q := 40) (p := 29) (by norm_num) (by norm_num) (by norm_num)
      (by norm_num) (by norm_num) (by norm_num) (by norm_num)
    obtain ⟨b1, b2⟩ := rpow_bounds_of_pow (x := (70 : ℝ)) (l := 6.08) (u := 6.09)
      (c := 0.425) (q := 40) (p := 17) (by norm_num) (by norm_num) (by norm_num)
      (by norm_num) (by norm_num) (by norm_num) (by norm_num)
    have hA0 : (0 : ℝ) ≤ (175 : ℝ) ^ (0.725 : ℝ) := Real.rpow_nonneg (by norm_num) _
    have hB0 : (0 : ℝ) ≤ (70 : ℝ) ^ (0.425 : ℝ) := Real.rpow_nonneg (by norm_num) _
    have p1 : (175 : ℝ) ^ (0.725 : ℝ) * (70 : ℝ) ^ (0.425 : ℝ) ≤ 42.3 * 6.09 :=
      mul_le_mul a2 b2 hB0 (by norm_num)
    have p2 : (42.28 : ℝ) * 6.08 ≤ (175 : ℝ) ^ (0.725 : ℝ) * (70 : ℝ) ^ (0.425 : ℝ) :=
      mul_le_mul a1 b1 (by norm_num) hA0
    unfold duBoisBSA
    rw [abs_le]
    constructor <;> nlinarith [p1, p2]

/-- The severity of the seed is a lower bound for the severity of a
`moreSevere` fold. -/
lemma severity_le_foldl : ∀ (l : List AuditResultPopup.AuditCategory)
    (a : AuditResultPopup.AuditCategory),
    DoseRuleEvaluator.severity a ≤
      DoseRuleEvaluator.severity (l.foldl DoseRuleEvaluator.moreSevere a) := by
  intro l
  induction l with
  | nil => intro a; exact le_refl _
  | cons b t ih =>
    intro a
    have h1 : DoseRuleEvaluator.severity a ≤
        DoseRuleEvaluator.severity (DoseRuleEvaluator.moreSevere a b) := by
      unfold DoseRuleEvaluator.moreSevere
      split <;> omega
    exact h1.trans (ih (DoseRuleEvaluator.moreSevere a b))

/-- Every member of the list is bounded by the severity of the fold. -/
lemma severity_mem_le_foldl : ∀ (l : List AuditResultPopup.AuditCategory)
    (a c : AuditResultPopup.AuditCategory), c ∈ l →
    DoseRuleEvaluator.severity c ≤
      DoseRuleEvaluator.severity (l.foldl DoseRuleEvaluator.moreSevere a) := by
  intro l
  induction l with
  | nil => intro a c hc; cases hc
  | cons b t ih =>
    intro a c hc
    rcases List.mem_cons.mp hc with rfl | hc
    · have h1 : DoseRuleEvaluator.severity c ≤
          DoseRuleEvaluator.severity (DoseRuleEvaluator.moreSevere a c) := by
        unfold DoseRuleEvaluator.moreSevere
        split <;> omega
      exact h1.trans (severity_le_foldl t _)
    · exact ih (DoseRuleEvaluator.moreSevere a b) c hc

/-- C9: the line evaluator classifies under the fixed severity ordering
Contraindicated > IntervalAdjustmentNeeded > DoseAdjustmentNeeded > Normal:
every matching rule's category is dominated by the returned category, and the
spec's scenario (CrCl 20 against Contraindicated-below-30 and
DoseAdjustmentNeeded-below-60) classifies Contraindicated. -/
theorem claim_C9_severity_ordering :
    (∀ (rules : List DoseRuleEvaluator.DoseRule)
       (m : DoseRuleEvaluator.RenalMetricsQ), m.onDialysis = false →
      ∀ r ∈ rules, DoseRuleEvaluator.ruleMatches m r = true →
        DoseRuleEvaluator.severity r.category ≤
          DoseRuleEvaluator.severity
            (DoseRuleEvaluator.evaluateLine rules m).category) ∧
    (DoseRuleEvaluator.evaluateLine
        [DoseRuleEvaluator.contraBelow30, DoseRuleEvaluator.doseBelow60]
        DoseRuleEvaluator.patientCrCl20).category = .Contraindicated := by
  constructor
  · intro rules m hd r hr hmatch
    have hne : rules.isEmpty = false := by
      cases rules with
      | nil => cases hr
      | cons a t => rfl
    have hmem : r ∈ rules.filter (DoseRuleEvaluator.ruleMatches m) :=
      List.mem_filter.mpr ⟨hr, hmatch⟩
    have hfne : (rules.filter (DoseRuleEvaluator.ruleMatches m)).isEmpty = false := by
      cases hfilter : rules.filter (DoseRuleEvaluator.ruleMatches m) with
      | nil => rw [hfilter] at hmem; cases hmem
      | cons a t => rfl
    unfold DoseRuleEvaluator.evaluateLine
    rw [hne, hd]
    simp only [Bool.false_eq_true, if_false, hfne]
    exact severity_mem_le_foldl _ _ _
      (List.mem_map.mpr ⟨r, hmem, rfl⟩)
  · rfl

/-- Witness for C9: the matching DoseAdjustmentNeeded rule of the scenario is
dominated by the returned classification. -/
theorem claim_C9_witness :
    DoseRuleEvaluator.severity DoseRuleEvaluator.doseBelow60.category ≤
      DoseRuleEvaluator.severity (DoseRuleEvaluator.evaluateLine
        [DoseRuleEvaluator.contraBelow30, DoseRuleEvaluator.doseBelow60]
        DoseRuleEvaluator.patientCrCl20).category :=
  claim_C9_severity_ordering.1 _ _ rfl DoseRuleEvaluator.doseBelow60
    (List.mem_cons_of_mem _ (List.mem_cons_self _ _)) rfl

/-- C4 (amended): over the system's legal per-line `audit_result` values, the
popup's has-issues summary (`'처방 이상 사항'`) holds exactly when some
line's category is not Normal; the history badge instead treats only `'-'`
(and the pending marker `'대기중'`) as non-abnormal, so it matches that
characterization only on lists with no line stored as `'정상'` (see the
counterexample).  Both summaries are functions of the per-line outcomes. -/
theorem claim_C4_order_summary :
    ∀ results : List String, (∀ r ∈ results, r ∈ AuditResultPopup.validResults) →
      (AuditResultPopup.hasIssues results = true ↔
        ∃ r ∈ results, AuditResultPopup.resultCategory r ≠
          some AuditResultPopup.AuditCategory.Normal) ∧
      ((∀ r ∈ results, r ≠ "정상") →
        (AuditHistory.statusBadgeLabel results = "이상" ↔
          ∃ r ∈ results, AuditResultPopup.resultCategory r ≠
            some AuditResultPopup.AuditCategory.Normal)) := by
  have elem1 : ∀ r ∈ AuditResultPopup.validResults,
      ((r ≠ "-" && r ≠ "정상") = true ↔
        AuditResultPopup.resultCategory r ≠
          some AuditResultPopup.AuditCategory.Normal) := by decide
  have elem2 : ∀ r ∈ AuditResultPopup.validResults, r ≠ "대기중" := by decide
  have elem3 : ∀ r ∈ AuditResultPopup.validResults, r ≠ "정상" →
      ((r ≠ "-" && r ≠ "대기중") = true ↔
        AuditResultPopup.resultCategory r ≠
          some AuditResultPopup.AuditCategory.Normal) := by decide
  intro results hvalid
  constructor
  · unfold AuditResultPopup.hasIssues
    rw [List.any_eq_true]
    constructor
    · rintro ⟨r, hr, hc⟩
      exact ⟨r, hr, (elem1 r (hvalid r hr)).mp hc⟩
    · rintro ⟨r, hr, hc⟩
      exact ⟨r, hr, (elem1 r (hvalid r hr)).mpr hc⟩
  · intro hno
    unfold AuditHistory.statusBadgeLabel
    have hpend : (results.any fun r => r = "대기중") = false := by
      rw [List.any_eq_false]
      intro r hr
      simpa using elem2 r (hvalid r hr)
    rw [hpend]
    simp only [Bool.false_eq_true, if_false]
    constructor
    · intro hlab
      by_cases hab : (results.any fun r => r ≠ "-" && r ≠ "대기중") = true
      · obtain ⟨r, hr, hc⟩ := List.any_eq_true.mp hab
        exact ⟨r, hr, (elem3 r (hvalid r hr) (hno r hr)).mp hc⟩
      · rw [Bool.not_eq_true] at hab
        rw [hab] at hlab
        simp at hlab
    · rintro ⟨r, hr, hc⟩
      have hab : (results.any fun r => r ≠ "-" && r ≠ "대기중") = true :=
        List.any_eq_true.mpr ⟨r, hr, (elem3 r (hvalid r hr) (hno r hr)).mpr hc⟩
      rw [hab]
      rfl

/-- Witness for C4 at a concrete outcome list with one contraindicated line. -/
theorem claim_C4_witness :
    (AuditResultPopup.hasIssues ["금기", "-"] = true ↔
      ∃ r ∈ ["금기", "-"], AuditResultPopup.resultCategory r ≠
        some AuditResultPopup.AuditCategory.Normal) ∧
    ((∀ r ∈ ["금기", "-"], r ≠ "정상") →
      (AuditHistory.statusBadgeLabel ["금기", "-"] = "이상" ↔
        ∃ r ∈ ["금기", "-"], AuditResultPopup.resultCategory r ≠
          some AuditResultPopup.AuditCategory.Normal)) :=
  claim_C4_order_summary ["금기", "-"] (by decide)

/-- Counterexample to C4 as stated: a single line recorded with the Normal
category string `'정상'` makes the history badge read `'이상'` (abnormal),
although no line's category differs from Normal. -/
theorem claim_C4_counterexample :
    AuditHistory.statusBadgeLabel ["정상"] = "이상" ∧
    AuditResultPopup.resultCategory "정상" =
      some AuditResultPopup.AuditCategory.Normal := by
  constructor <;> decide

/-- C10: the patient record posted by `handleAuditExecution` carries the
sentinel serum creatinine 10.0 mg/dL when the dialysis flag is set, and the
user-entered creatinine unchanged otherwise. -/
theorem claim_C10_sentinel_creatinine :
    (∀ info : NewAudit.PatientInfo, info.isOnDialysis = true →
      (NewAudit.buildPatientData info).scr_mg_dl = some 10) ∧
    (∀ info : NewAudit.PatientInfo, info.isOnDialysis = false →
      (NewAudit.buildPatientData info).scr_mg_dl = info.scr) := by
  constructor <;> intro info h <;> norm_num [NewAudit.buildPatientData, h]

/-- Witness for C10 at a concrete dialysis and a concrete non-dialysis
patient. -/
theorem claim_C10_witness :
    (NewAudit.buildPatientData
      (⟨"", "male", some ⟨1980, 4, 15⟩, some 70, some 175, some 3, none, none, none,
        none, true⟩ : NewAudit.PatientInfo)).scr_mg_dl = some 10 ∧
    (NewAudit.buildPatientData
      (⟨"", "male", some ⟨1980, 4, 15⟩, some 70, some 175, some 3, none, none, none,
        none, false⟩ : NewAudit.PatientInfo)).scr_mg_dl = some 3 :=
  ⟨claim_C10_sentinel_creatinine.1 _ rfl, claim_C10_sentinel_creatinine.2 _ rfl⟩

end RD
